import Mathlib

/-!
Shallow embedding of `datacube_ows/ogc_utils.py` (datacube-ows).

Python machine model used throughout:
* Python values relevant to the claims are modelled by `Val` (None, ints,
  strings, and opaque product-configuration objects), with Python truthiness
  as `Val.truthy`.
* Python dicts that the code builds and mutates are modelled as
  insertion-ordered association lists (`Dict`); `dictSet` is `d[k] = v`
  (replace in place or append), `dictUpdate` is `d.update(other)`.
* Raised exceptions are modelled by `Except PyError`; `PyError`'s
  constructors are named after the exception classes the code actually
  raises (`Exception`, `ConfigException`, `AttributeError`, bare `assert`
  giving `AssertionError` with an empty message, ...).
* Instants are seconds since an epoch (`Int`); a calendar date is its day
  index (days since the epoch), so local wall-clock `(date, h, m, s)` is
  `date * 86400 + h * 3600 + m * 60 + s` seconds.
-/

namespace OgcUtils

/-- Python values occurring in the claims: `None`, integers, strings, and
opaque product-configuration objects (always truthy, like any plain Python
object instance). -/
inductive Val where
  | pynone
  | int (n : Int)
  | str (s : String)
  | pcfg (tag : String)
  deriving DecidableEq, Repr

/-- Python truthiness for `Val`: `None` is falsy, `0` is falsy, the empty
string is falsy, object instances are truthy. -/
def Val.truthy : Val → Bool
  | .pynone => false
  | .int n => decide (n ≠ 0)
  | .str s => decide (s ≠ "")
  | .pcfg _ => true

/-- A Python dict, as an insertion-ordered association list. -/
abbrev Dict := List (String × Val)

/-- Python `d[k] = v`: replace the value at an existing key in place,
otherwise append the new pair at the end. -/
def dictSet (d : Dict) (k : String) (v : Val) : Dict :=
  match d with
  | [] => [(k, v)]
  | (k0, v0) :: rest => if k0 = k then (k0, v) :: rest else (k0, v0) :: dictSet rest k v

/-- Python `d.update(other)`: assign every pair of `other` into `d`, in
order. -/
def dictUpdate (d other : Dict) : Dict :=
  other.foldl (fun acc kv => dictSet acc kv.1 kv.2) d

/-- Python `d.get(k)` / `d[k]` lookup. -/
def dictGet (d : Dict) (k : String) : Option Val :=
  match d with
  | [] => Option.none
  | (k0, v0) :: rest => if k0 = k then some v0 else dictGet rest k

/-- Exceptions raised by the code under `src/`, by actual Python class.
`assertionError ""` is a bare `assert` (no message). `attributeError o a`
stands for `AttributeError` complaining that object `o` has no attribute
`a`. -/
inductive PyError where
  | exception (msg : String)
  | configException (msg : String)
  | attributeError (objDesc : String) (attr : String)
  | assertionError (msg : String)
  | valueError (msg : String)
  | moduleNotFoundError (modName : String)
  deriving DecidableEq, Repr

/-- The human-readable message carried by an exception (the string Python
would show; a bare `assert` carries the empty message). -/
def PyError.message : PyError → String
  | .exception msg => msg
  | .configException msg => msg
  | .attributeError objDesc attr => "module " ++ objDesc ++ " has no attribute " ++ attr
  | .assertionError msg => msg
  | .valueError msg => msg
  | .moduleNotFoundError modName => "No module named " ++ modName

/-! ## Timezone resolver (`tz_for_coord`, lines 44-51)

The `timezonefinder` library is external: it is modelled as an oracle
`finder : Coord → Nat → Option String` giving, for a coordinate and a
`delta_degree` search radius, the closest timezone name (or `None`).
`tz_for_coord` is instrumented with a trace so the claims about the number
and order of queries and about the diagnostic `print` are statable. -/

/-- A geographic coordinate `(lon, lat)`. -/
abbrev Coord := Int × Int

/-- The observable behaviour of one `tz_for_coord` call: which
`delta_degree` values were queried (in order), which diagnostics were
printed, and the returned timezone name or raised exception. -/
structure TzTrace where
  queries : List Nat
  diagnostics : List String
  result : Except PyError String
  deriving Repr

/-- Source `tz_for_coord(lon, lat)`: query `tf.closest_timezone_at` with
`delta_degree=9`; if falsy, print a diagnostic and retry with
`delta_degree=15`; if that is also falsy, `raise Exception("closest tz
failed with delta 15deg")`. (`timezone(tzn)` itself is a pytz lookup on the
returned name; the trace records the name.) -/
def tz_for_coord (finder : Coord → Nat → Option String) (lon lat : Int) : TzTrace :=
  match finder (lon, lat) 9 with
  | some tzn => ⟨[9], [], .ok tzn⟩
  | Option.none =>
    match finder (lon, lat) 15 with
    | some tzn => ⟨[9, 15], ["closest tz failed with delta 9deg"], .ok tzn⟩
    | Option.none =>
      ⟨[9, 15], ["closest tz failed with delta 9deg"],
        .error (.exception "closest tz failed with delta 15deg")⟩

/-! ## Solar date range (`local_solar_date_range`, lines 59-64)

pytz semantics needed here: a `pytz.timezone(...)` object attached to a
`datetime` through the `tzinfo=` constructor argument reports the zone's
FIRST transition offset -- its local mean time (LMT) -- for `utcoffset()`,
no matter the date (pytz requires `tz.localize(...)` for the correct
offset; the source does not use it). A proper conversion INTO the zone
(`astimezone(tz)` on an aware datetime) uses the instant-dependent true
offset. A zone is therefore modelled by both offsets. -/

/-- A pytz timezone: `lmtOffset` is the offset (seconds east of UTC) used
when the zone is attached via `tzinfo=` in the `datetime` constructor (the
zone's first transition, local mean time); `offsetAt u` is the true UTC
offset in effect at UTC instant `u`, used by correct conversions into the
zone. -/
structure PytzTimezone where
  lmtOffset : Int
  offsetAt : Int → Int

/-- A geobox, reduced to what the source reads: the `(lon, lat)` of its
`geographic_extent.centroid`. -/
structure GeoBox where
  centroidLon : Int
  centroidLat : Int

/-- Source `local_solar_date_range(geobox, date)`: resolve the timezone at
the geobox centroid, build `datetime(date.year, date.month, date.day, 0, 0,
0, tzinfo=tz)` and `... 23, 59, 59, tzinfo=tz)`, and convert both to UTC.
With `tzinfo=` attachment, `astimezone(utc)` subtracts the zone's LMT
offset. `date` is the day index; `tzdb` is the pytz zone database. -/
def local_solar_date_range (finder : Coord → Nat → Option String)
    (tzdb : String → PytzTimezone) (geobox : GeoBox) (date : Int) :
    Except PyError (Int × Int) :=
  match (tz_for_coord finder geobox.centroidLon geobox.centroidLat).result with
  | .error e => .error e
  | .ok tzn =>
    let tz := tzdb tzn
    .ok (date * 86400 - tz.lmtOffset, date * 86400 + 86399 - tz.lmtOffset)

/-- Converting a UTC instant back into a zone (`astimezone(tz)`, done
correctly by pytz on an aware datetime) and taking `.date()`: local
wall-clock seconds are `u + offsetAt u`, and the calendar date is their
floor-division by 86400. -/
def localDateOf (tz : PytzTimezone) (u : Int) : Int :=
  Int.fdiv (u + tz.offsetAt u) 86400

/-! ## Function resolution (`get_function`, lines 72-83) -/

/-- A Python object held in a module: only whether it is callable and an
identity tag matter to the claims. -/
structure PyObj where
  isCallable : Bool
  tag : String
  deriving DecidableEq, Repr

/-- The importable-module environment: module name to its attribute table.
`import_module` and `getattr` are lookups in it. -/
structure PyEnv where
  modules : List (String × List (String × PyObj))
  deriving DecidableEq, Repr

/-- Association-list lookup (used for module and attribute tables). -/
def alistGet {α : Type} (l : List (String × α)) (k : String) : Option α :=
  match l with
  | [] => Option.none
  | (k0, v0) :: rest => if k0 = k then some v0 else alistGet rest k

/-- Splits a character list at its LAST `.`, returning the parts before
and after it, or `none` when no dot occurs. -/
def rsplitDotAux : List Char → Option (List Char × List Char)
  | [] => Option.none
  | c :: rest =>
    match rsplitDotAux rest with
    | some (pre, post) => some (c :: pre, post)
    | Option.none => if c = '.' then some ([], rest) else Option.none

/-- Python `s.rsplit(".", 1)` followed by unpacking into two names: split
at the last dot; `none` when the string has no dot (Python raises
`ValueError: not enough values to unpack` there). -/
def rsplitDot (s : String) : Option (String × String) :=
  match rsplitDotAux s.toList with
  | Option.none => Option.none
  | some (pre, post) => some (String.mk pre, String.mk post)

/-- The body of `get_function` for a string argument: `mod_name, func_name =
func.rsplit(".", 1)`; `mod = import_module(mod_name)`; `func = getattr(mod,
func_name)`; `assert callable(func)`. A missing attribute raises
`AttributeError`; the bare `assert` on a non-callable raises
`AssertionError` with no message. -/
def resolve_name (env : PyEnv) (s : String) : Except PyError PyObj :=
  match rsplitDot s with
  | Option.none => .error (.valueError "not enough values to unpack")
  | some (modName, funcName) =>
    match alistGet env.modules modName with
    | Option.none => .error (.moduleNotFoundError modName)
    | some attrs =>
      match alistGet attrs funcName with
      | Option.none => .error (.attributeError modName funcName)
      | some obj =>
        if obj.isCallable then .ok obj else .error (.assertionError "")

/-- Argument to `get_function`: `None`, an already-callable object, or a
fully qualified name string. -/
inductive FuncArg where
  | pynoneF
  | callableF (f : PyObj)
  | strF (s : String)
  deriving DecidableEq, Repr

/-- Source `get_function(func)`: `None` and callables pass through
unchanged; a string is resolved via the module environment
(`resolve_name`). -/
def get_function (env : PyEnv) : FuncArg → Except PyError (Option PyObj)
  | .pynoneF => .ok Option.none
  | .callableF f => .ok (some f)
  | .strF s => (resolve_name env s).map some

/-! ## FunctionWrapper (lines 188-225) -/

/-- A function-dispatch configuration entry: a raw callable (rejected), a
bare fully qualified name, or the structured record
`{function, args?, kwargs?, pass_product_cfg?}` (`Option.none` for an
absent key, where the source uses `.get(key, default)`). -/
inductive FuncCfg where
  | callableCfg (f : PyObj)
  | strCfg (s : String)
  | recordCfg (function : String) (args : Option (List Val)) (kwargs : Option Dict)
      (passProductCfg : Option Bool)
  deriving DecidableEq, Repr

/-- State of a constructed `FunctionWrapper`: resolved function, bound
default positional args `self._args`, bound default kwargs `self._kwargs`,
and `self.product_cfg` (`Val.pynone` models `None`). -/
structure FunctionWrapper where
  func : PyObj
  args : List Val
  kwargs : Dict
  product_cfg : Val
  deriving DecidableEq, Repr

/-- Source `FunctionWrapper.__init__(self, product_cfg, func_cfg)`: a raw
callable raises `ConfigException`; a string resolves with no bound args and
`product_cfg = None`; a record resolves `func_cfg["function"]`, takes
`args`/`kwargs` defaults (`[]`/`{}` when absent), and retains `product_cfg`
only when `pass_product_cfg` is true. `get_function` on a string is exactly
`resolve_name` (the `None`/callable passthrough cases cannot arise). -/
def FunctionWrapper.init (env : PyEnv) (product_cfg : Val) (func_cfg : FuncCfg) :
    Except PyError FunctionWrapper :=
  match func_cfg with
  | .callableCfg _ =>
    .error (.configException
      "Directly including callable objects in configuration is no longer supported. Please reference callables by fully qualified name.")
  | .strCfg s =>
    match resolve_name env s with
    | .error e => .error e
    | .ok f => .ok ⟨f, [], [], Val.pynone⟩
  | .recordCfg function args kwargs passProductCfg =>
    match resolve_name env function with
    | .error e => .error e
    | .ok f =>
      .ok ⟨f, args.getD [], kwargs.getD [],
        if passProductCfg.getD false then product_cfg else Val.pynone⟩

/-- What the wrapped function receives at one invocation. -/
structure CallRecord where
  func : PyObj
  args : List Val
  kwargs : Dict
  deriving DecidableEq, Repr

/-- Source `FunctionWrapper.__call__(self, *args, **kwargs)`. Positional:
`chain(args, self._args)` / `args` / `self._args` by non-emptiness.
Keyword: `self._kwargs.copy()` updated with `kwargs` when both non-empty,
else whichever is non-empty -- NOTE that the final `else` branch binds
`calling_kwargs` to `self._kwargs` itself (no copy), so the later
`calling_kwargs["product_cfg"] = self.product_cfg` (executed when
`self.product_cfg` is truthy) mutates the wrapper's own `_kwargs` dict.
Returns the call actually made and the wrapper's state after the call. -/
def FunctionWrapper.call (w : FunctionWrapper) (args : List Val) (kwargs : Dict) :
    CallRecord × FunctionWrapper :=
  let calling_args :=
    if args ≠ [] ∧ w.args ≠ [] then args ++ w.args
    else if args ≠ [] then args
    else w.args
  let aliased := kwargs = []
  let calling_kwargs :=
    if kwargs ≠ [] ∧ w.kwargs ≠ [] then dictUpdate w.kwargs kwargs
    else if kwargs ≠ [] then kwargs
    else w.kwargs
  let final_kwargs :=
    if w.product_cfg.truthy then dictSet calling_kwargs "product_cfg" w.product_cfg
    else calling_kwargs
  let w2 :=
    if aliased ∧ w.product_cfg.truthy then { w with kwargs := final_kwargs } else w
  (⟨w.func, calling_args, final_kwargs⟩, w2)

/-! ## Dataset center time (`dataset_center_time`, lines 18-25) -/

/-- A dataset, reduced to what `dataset_center_time` reads: the computed
`center_time` (an instant) and the relevant slice of `metadata_doc` -- a
dict whose `extent` entry, when present, is a dict that may hold a
`center_dt` date string. -/
structure Dataset where
  center_time : Int
  metadata_doc : List (String × List (String × String))
  deriving DecidableEq, Repr

/-- Source `dataset_center_time(dataset)`: start from
`dataset.center_time`; try `dataset.metadata_doc["extent"]["center_dt"]`
and `parse` it, swallowing only `KeyError`; return the result. A missing
`extent` or `center_dt` key is the caught `KeyError` (the fallback); a
present string is handed to `dateutil.parser.parse`, modelled by the
oracle `parse`. -/
def dataset_center_time (parse : String → Int) (ds : Dataset) : Int :=
  match alistGet ds.metadata_doc "extent" with
  | Option.none => ds.center_time
  | some extent =>
    match alistGet extent "center_dt" with
    | Option.none => ds.center_time
    | some s => parse s

/-! ## Data collections (lines 135-183)

`DataCollection` stores `TimeData(time, data)` entries; `DatasetCollection`
overrides the nested `TimeData` class with one storing `time` and
`datasets` (no `data` attribute) and overrides `__len__`. Both are generic
in the payload type. -/

/-- `DataCollection.TimeData`: fields `time` and `data`. -/
structure TimeData (α : Type) where
  time : Int
  data : α
  deriving DecidableEq, Repr

/-- `DataCollection`: the `self._collections` list. -/
structure DataCollection (α : Type) where
  collections : List (TimeData α)
  deriving DecidableEq, Repr

/-- `DataCollection.add_time(self, time, data)`: append a new entry. -/
def DataCollection.add_time {α : Type} (c : DataCollection α) (t : Int) (d : α) :
    DataCollection α :=
  ⟨c.collections ++ [⟨t, d⟩]⟩

/-- `DataCollection.__len__`. -/
def DataCollection.len {α : Type} (c : DataCollection α) : Nat :=
  c.collections.length

/-- `DataCollection.collapse_to_single(self)`: `self._collections[0].data`
when non-empty, else `None`. -/
def DataCollection.collapse_to_single {α : Type} (c : DataCollection α) : Option α :=
  match c.collections with
  | [] => Option.none
  | td :: _ => some td.data

/-- `DatasetCollection.TimeData`: fields `time` and `datasets` -- there is
no `data` field. -/
structure DsTimeData (δ : Type) where
  time : Int
  datasets : List δ
  deriving DecidableEq, Repr

/-- Python attribute lookup on a `DatasetCollection.TimeData` instance: the
class defines exactly `time` and `datasets`; any other name is an
`AttributeError`. -/
def DsTimeData.getattr {δ : Type} (td : DsTimeData δ) (name : String) :
    Option (Int ⊕ List δ) :=
  if name = "time" then some (Sum.inl td.time)
  else if name = "datasets" then some (Sum.inr td.datasets)
  else Option.none

/-- `DatasetCollection`: inherits `self._collections`, but `add_time`
builds `self.TimeData`, which resolves to `DatasetCollection.TimeData`. -/
structure DatasetCollection (δ : Type) where
  collections : List (DsTimeData δ)
  deriving DecidableEq, Repr

/-- `DataCollection.add_time` as inherited by `DatasetCollection`:
`self.TimeData(time, data)` is `DatasetCollection.TimeData(time,
datasets)`. -/
def DatasetCollection.add_time {δ : Type} (c : DatasetCollection δ) (t : Int)
    (datasets : List δ) : DatasetCollection δ :=
  ⟨c.collections ++ [⟨t, datasets⟩]⟩

/-- `DatasetCollection.__len__`: `sum([len(td) for td in
self._collections])` with `len(td) = len(td.datasets)`. -/
def DatasetCollection.len {δ : Type} (c : DatasetCollection δ) : Nat :=
  (c.collections.map (fun td => td.datasets.length)).sum

/-- `DataCollection.collapse_to_single` as inherited by
`DatasetCollection`: on a non-empty collection it evaluates
`self._collections[0].data`, an attribute lookup on a
`DatasetCollection.TimeData` instance, which defines no `data` attribute
and so raises `AttributeError`; on an empty collection it returns `None`. -/
def DatasetCollection.collapse_to_single {δ : Type} (c : DatasetCollection δ) :
    Except PyError (Option (Int ⊕ List δ)) :=
  match c.collections with
  | [] => .ok Option.none
  | td :: _ =>
    match td.getattr "data" with
    | some v => .ok (some v)
    | Option.none => .error (.attributeError "TimeData" "data")

/-- A `DatasetCollection` populated from empty by successive `add_time`
calls, one per listed `(time, datasets)` pair. -/
def DatasetCollection.build {δ : Type} (entries : List (Int × List δ)) :
    DatasetCollection δ :=
  entries.foldl (fun c e => c.add_time e.1 e.2) ⟨[]⟩

/-! ## Concrete instances used by witnesses and counterexamples -/

/-- A finder oracle that never locates a timezone (both search radii
miss). -/
def noTzFinder : Coord → Nat → Option String := fun _ _ => Option.none

/-- A finder oracle that always resolves to the Sydney zone name. -/
def sydneyFinder : Coord → Nat → Option String := fun _ _ => some "Australia/Sydney"

/-- A Sydney-like pytz zone: first transition (LMT) offset +10:05
(36300 s), true offset +10:00 (36000 s) year-round (DST ignored; any true
offset different from LMT exhibits the behaviour). -/
def sydneyLMT : PytzTimezone := ⟨36300, fun _ => 36000⟩

/-- A zone database resolving every name to the Sydney-like zone. -/
def sydneyDb : String → PytzTimezone := fun _ => sydneyLMT

/-- A geobox whose centroid is in Sydney. -/
def sydneyBox : GeoBox := ⟨151, -33⟩

/-- A module environment holding one callable `m.f`. -/
def envM : PyEnv := ⟨[("m", [("f", ⟨true, "m.f"⟩)])]⟩

/-- A module environment where `m.x` exists but is not callable. -/
def envNotCallable : PyEnv := ⟨[("m", [("x", ⟨false, "m.x"⟩)])]⟩

/-- A module environment holding `math.pow`. -/
def mathEnv : PyEnv := ⟨[("math", [("pow", ⟨true, "math.pow"⟩)])]⟩

/-- The resolved `math.pow` object. -/
def powObj : PyObj := ⟨true, "math.pow"⟩

/-- The wrapper built from `{"function": "math.pow", "args": [2],
"kwargs": {}}` (no `pass_product_cfg`). -/
def powWrapper : FunctionWrapper := ⟨powObj, [Val.int 2], [], Val.pynone⟩

/-- The wrapper built from `{"function": "m.f", "pass_product_cfg": True}`
with the (falsy) product configuration `None`. -/
def wNone : FunctionWrapper := ⟨⟨true, "m.f"⟩, [], [], Val.pynone⟩

/-- The wrapper built from `{"function": "m.f", "pass_product_cfg": True}`
with a truthy product-configuration object. -/
def wLayer : FunctionWrapper := ⟨⟨true, "m.f"⟩, [], [], Val.pcfg "layer"⟩

/-! ## Helper lemmas about dict operations -/

/-- Setting a key makes it retrievable with the value just set. -/
theorem dictGet_dictSet_self (d : Dict) (k : String) (v : Val) :
    dictGet (dictSet d k v) k = some v := by
  induction d with
  | nil => simp [dictSet, dictGet]
  | cons kv rest ih =>
    obtain ⟨k0, v0⟩ := kv
    by_cases h : k0 = k
    · subst h
      simp [dictSet, dictGet]
    · simp [dictSet, dictGet, h, ih]

/-- Setting the same key to the same value twice equals setting it once. -/
theorem dictSet_idem (d : Dict) (k : String) (v : Val) :
    dictSet (dictSet d k v) k v = dictSet d k v := by
  induction d with
  | nil => simp [dictSet]
  | cons kv rest ih =>
    obtain ⟨k0, v0⟩ := kv
    by_cases h : k0 = k
    · subst h
      simp [dictSet]
    · simp [dictSet, h, ih]

/-- `dictUpdate` consumes its second argument pairwise from the front. -/
theorem dictUpdate_cons (d : Dict) (k : String) (v : Val) (rest : Dict) :
    dictUpdate d ((k, v) :: rest) = dictUpdate (dictSet d k v) rest := rfl

/-- A leading pair whose key does not occur in the updates is preserved in
place by `dictUpdate`. -/
theorem dictUpdate_cons_left_of_not_mem (other : Dict) (k : String) (v : Val)
    (acc : Dict) (h : k ∉ other.map Prod.fst) :
    dictUpdate ((k, v) :: acc) other = (k, v) :: dictUpdate acc other := by
  induction other generalizing acc with
  | nil => rfl
  | cons kv rest ih =>
    obtain ⟨k1, v1⟩ := kv
    have hne : k ≠ k1 := by
      intro hEq
      exact h (by simp [hEq])
    have hrest : k ∉ rest.map Prod.fst := by
      intro hmem
      exact h (by simp [hmem])
    rw [dictUpdate_cons, dictUpdate_cons]
    have hset : dictSet ((k, v) :: acc) k1 v1 = (k, v) :: dictSet acc k1 v1 := by
      simp [dictSet, hne]
    rw [hset, ih (dictSet acc k1 v1) hrest]

/-- Updating the empty dict with a duplicate-free dict reproduces it. -/
theorem dictUpdate_nil_left (d : Dict) (h : (d.map Prod.fst).Nodup) :
    dictUpdate [] d = d := by
  induction d with
  | nil => rfl
  | cons kv rest ih =>
    obtain ⟨k, v⟩ := kv
    rw [List.map_cons, List.nodup_cons] at h
    have step : dictUpdate ([] : Dict) ((k, v) :: rest) = dictUpdate [(k, v)] rest := rfl
    rw [step, show ([(k, v)] : Dict) = (k, v) :: ([] : Dict) from rfl,
      dictUpdate_cons_left_of_not_mem rest k v [] h.1, ih h.2]

/-! ## Claim theorems -/

/-- C2: `tz_for_coord` first queries at a 9-degree radius; on failure it
emits only the diagnostic and makes exactly one wider query at 15 degrees;
if that also fails it raises an exception whose message describes the
15-degree failure ("closest tz failed with delta 15deg"); it never makes a
third attempt (at most two queries in every case) and never returns a
timezone when both attempts fail. (The raised exception is the code's
generic `Exception` class, which the spec's taxonomy calls
`ResolutionError`.) -/
theorem tz_for_coord_two_stage (finder : Coord → Nat → Option String) (lon lat : Int) :
    (tz_for_coord finder lon lat).queries.length ≤ 2 ∧
    (∀ t, finder (lon, lat) 9 = some t →
      tz_for_coord finder lon lat = ⟨[9], [], .ok t⟩) ∧
    (finder (lon, lat) 9 = Option.none → ∀ t, finder (lon, lat) 15 = some t →
      tz_for_coord finder lon lat =
        ⟨[9, 15], ["closest tz failed with delta 9deg"], .ok t⟩) ∧
    (finder (lon, lat) 9 = Option.none → finder (lon, lat) 15 = Option.none →
      tz_for_coord finder lon lat =
        ⟨[9, 15], ["closest tz failed with delta 9deg"],
          .error (.exception "closest tz failed with delta 15deg")⟩) := by
  refine ⟨?_, ?_, ?_, ?_⟩
  · unfold tz_for_coord
    cases h9 : finder (lon, lat) 9 <;> cases h15 : finder (lon, lat) 15 <;> simp
  · intro t h9
    unfold tz_for_coord
    rw [h9]
  · intro h9 t h15
    unfold tz_for_coord
    rw [h9, h15]
  · intro h9 h15
    unfold tz_for_coord
    rw [h9, h15]

/-- C2 witness: with a finder that never locates a zone, `tz_for_coord`
queries 9 then 15 degrees, prints the one diagnostic, and raises. -/
theorem tz_for_coord_two_stage_witness :
    tz_for_coord noTzFinder 0 0 =
      ⟨[9, 15], ["closest tz failed with delta 9deg"],
        .error (.exception "closest tz failed with delta 15deg")⟩ :=
  (tz_for_coord_two_stage noTzFinder 0 0).2.2.2 rfl rfl

/-- C1 (code bug): `local_solar_date_range` builds its bounds with
`datetime(..., tzinfo=tz)` on a pytz zone, which applies the zone's first
transition (LMT) offset instead of the real one. For a Sydney-like zone
(LMT +10:05, true offset +10:00) and day 18262 (2020-01-01) the returned
pair does differ by 86399 seconds (23:59:59), but the start bound,
converted back into the zone, falls at 23:55:00 of day 18261 -- the
PREVIOUS calendar date -- so the interval does not bracket the local day
from 00:00:00 to 23:59:59 as the spec requires. -/
theorem local_solar_date_range_lmt_shift :
    local_solar_date_range sydneyFinder sydneyDb sydneyBox 18262 =
      .ok (1577800500, 1577886899) ∧
    (1577886899 : Int) - 1577800500 = 86399 ∧
    localDateOf sydneyLMT 1577800500 = 18261 ∧ (18261 : Int) ≠ 18262 :=
  ⟨rfl, by decide, by decide, by decide⟩

/-- C9: constructing a `FunctionWrapper` directly from an already-callable
object raises `ConfigException` (the spec's `ConfigError`) at construction
time with its descriptive message -- no wrapper is ever produced, so no
invocation can happen. -/
theorem functionwrapper_init_rejects_callable (env : PyEnv) (product_cfg : Val)
    (f : PyObj) :
    FunctionWrapper.init env product_cfg (.callableCfg f) =
      .error (.configException
        "Directly including callable objects in configuration is no longer supported. Please reference callables by fully qualified name.") :=
  rfl

/-! ## Helper lemmas about `FunctionWrapper.call` -/

/-- The invoked function is always the resolved one. -/
theorem call_func_eq (w : FunctionWrapper) (cargs : List Val) (ckwargs : Dict) :
    (w.call cargs ckwargs).1.func = w.func := rfl

/-- The positional arguments handed to the wrapped function are always the
call-site arguments followed by the bound defaults (all three branches of
the source agree with concatenation). -/
theorem call_args_eq (w : FunctionWrapper) (cargs : List Val) (ckwargs : Dict) :
    (w.call cargs ckwargs).1.args = cargs ++ w.args := by
  by_cases h1 : cargs = [] <;> by_cases h2 : w.args = [] <;>
    simp [FunctionWrapper.call, h1, h2]

/-- Without a truthy retained product configuration, the keyword arguments
handed to the wrapped function are the bound defaults overlaid by the
(duplicate-free) call-site keywords. -/
theorem call_kwargs_eq_of_not_truthy (w : FunctionWrapper) (cargs : List Val)
    (ckwargs : Dict) (hpc : w.product_cfg.truthy = false)
    (hnodup : (ckwargs.map Prod.fst).Nodup) :
    (w.call cargs ckwargs).1.kwargs = dictUpdate w.kwargs ckwargs := by
  by_cases h1 : ckwargs = []
  · subst h1
    simp [FunctionWrapper.call, hpc, dictUpdate]
  · by_cases h2 : w.kwargs = []
    · rw [h2, dictUpdate_nil_left ckwargs hnodup]
      simp [FunctionWrapper.call, h1, h2, hpc]
    · simp [FunctionWrapper.call, h1, h2, hpc]

/-- With a truthy retained product configuration, the keyword arguments
handed to the wrapped function map `product_cfg` to the retained value,
whatever the call site supplied. -/
theorem call_kwargs_product_cfg_of_truthy (w : FunctionWrapper) (cargs : List Val)
    (ckwargs : Dict) (hpc : w.product_cfg.truthy = true) :
    dictGet ((w.call cargs ckwargs).1.kwargs) "product_cfg" = some w.product_cfg := by
  have : (w.call cargs ckwargs).1.kwargs =
      dictSet (if ckwargs ≠ [] ∧ w.kwargs ≠ [] then dictUpdate w.kwargs ckwargs
        else if ckwargs ≠ [] then ckwargs else w.kwargs) "product_cfg" w.product_cfg := by
    simp [FunctionWrapper.call, hpc]
  rw [this, dictGet_dictSet_self]

/-- The wrapper state after a call: unchanged, except that `self._kwargs`
gains the `product_cfg` entry when the call supplied no keyword arguments
(so `calling_kwargs` aliased `self._kwargs`) and the retained product
configuration is truthy. -/
theorem call_snd_eq (w : FunctionWrapper) (cargs : List Val) (ckwargs : Dict) :
    (w.call cargs ckwargs).2 =
      if ckwargs = [] ∧ w.product_cfg.truthy = true
      then { w with kwargs := dictSet w.kwargs "product_cfg" w.product_cfg }
      else w := by
  by_cases hk : ckwargs = [] <;> by_cases hpc : w.product_cfg.truthy <;>
    simp [FunctionWrapper.call, hk, hpc]

/-- A second invocation with the same call-site arguments hands the wrapped
function exactly the same call, even after the aliasing mutation. -/
theorem call_repeat (w : FunctionWrapper) (cargs : List Val) (ckwargs : Dict) :
    ((w.call cargs ckwargs).2.call cargs ckwargs).1 = (w.call cargs ckwargs).1 := by
  rw [call_snd_eq]
  by_cases hk : ckwargs = []
  · by_cases hpc : w.product_cfg.truthy
    · simp [hk, hpc, FunctionWrapper.call, dictSet_idem]
    · simp [hk, hpc]
  · simp [hk]

/-- C3 counterexample: a wrapper built from a structured record with
`pass_product_cfg: True` but a falsy retained product configuration
(`None`). The injection is guarded by the truthiness of
`self.product_cfg`, not by the flag, so a caller-supplied `product_cfg`
keyword is KEPT (value `7`), not replaced by the retained one (`None`):
the claim fails as stated. -/
theorem product_cfg_falsy_not_injected :
    FunctionWrapper.init envM Val.pynone
        (.recordCfg "m.f" Option.none Option.none (some true)) = .ok wNone ∧
    dictGet ((wNone.call [] [("product_cfg", Val.int 7)]).1.kwargs) "product_cfg" =
      some (Val.int 7) ∧
    (some (Val.int 7) : Option Val) ≠ some Val.pynone :=
  ⟨rfl, rfl, by decide⟩

/-- C3 as amended: for a wrapper built from a structured record with
`pass_product_cfg: True` AND a truthy retained product configuration,
every invocation hands the wrapped function `product_cfg` bound to the
retained configuration; a caller-supplied `product_cfg` keyword is
replaced, never merged and never kept. -/
theorem product_cfg_truthy_always_injected (env : PyEnv) (pc : Val) (fname : String)
    (dargs : Option (List Val)) (dkwargs : Option Dict) (w : FunctionWrapper)
    (hinit : FunctionWrapper.init env pc
      (.recordCfg fname dargs dkwargs (some true)) = .ok w)
    (hpc : pc.truthy = true) (cargs : List Val) (ckwargs : Dict) :
    dictGet ((w.call cargs ckwargs).1.kwargs) "product_cfg" = some pc := by
  have hw : w.product_cfg = pc := by
    simp only [FunctionWrapper.init] at hinit
    cases hres : resolve_name env fname with
    | error e =>
      rw [hres] at hinit
      exact absurd hinit (by simp)
    | ok f =>
      rw [hres] at hinit
      simp only [Option.getD_some, if_true, Except.ok.injEq] at hinit
      rw [← hinit]
  have hpt : w.product_cfg.truthy = true := by rw [hw]; exact hpc
  rw [call_kwargs_product_cfg_of_truthy w cargs ckwargs hpt, hw]

/-- C3 witness: the wrapper retaining the truthy configuration object
replaces the caller-supplied `product_cfg` keyword with it. -/
theorem product_cfg_truthy_always_injected_witness :
    dictGet ((wLayer.call [] [("product_cfg", Val.int 7)]).1.kwargs) "product_cfg" =
      some (Val.pcfg "layer") :=
  product_cfg_truthy_always_injected envM (Val.pcfg "layer") "m.f" Option.none
    Option.none wLayer rfl rfl [] [("product_cfg", Val.int 7)]

/-- C4 counterexample: for a wrapper retaining a truthy product
configuration, the received keyword arguments are NOT merely the bound
defaults overlaid by the call-site keywords -- the injected `product_cfg`
entry is there too, so the universally quantified claim fails. -/
theorem call_kwargs_overlay_fails_with_product_cfg :
    FunctionWrapper.init envM (Val.pcfg "layer")
        (.recordCfg "m.f" Option.none Option.none (some true)) = .ok wLayer ∧
    (wLayer.call [] []).1.kwargs = [("product_cfg", Val.pcfg "layer")] ∧
    dictUpdate wLayer.kwargs [] = [] ∧
    ([("product_cfg", Val.pcfg "layer")] : Dict) ≠ ([] : Dict) :=
  ⟨rfl, rfl, rfl, by decide⟩

/-- C4 as amended: at every invocation the wrapped function receives the
call-site positional arguments followed by the bound default args; when
the wrapper does not retain a truthy product configuration, the keyword
arguments are exactly the bound defaults overlaid by the (duplicate-free)
call-site keywords with the call site winning (a truthy retained
configuration additionally injects `product_cfg`); in particular the
wrapper built from `{"function": "math.pow", "args": [2], "kwargs": {}}`
called with `3` invokes `pow(3, 2)`. -/
theorem call_argument_merge (w : FunctionWrapper) (cargs : List Val) (ckwargs : Dict)
    (hnodup : (ckwargs.map Prod.fst).Nodup) :
    (w.call cargs ckwargs).1.args = cargs ++ w.args ∧
    (w.product_cfg.truthy = false →
      (w.call cargs ckwargs).1.kwargs = dictUpdate w.kwargs ckwargs) ∧
    FunctionWrapper.init mathEnv Val.pynone
        (.recordCfg "math.pow" (some [Val.int 2]) (some []) Option.none) =
      .ok powWrapper ∧
    (powWrapper.call [Val.int 3] []).1 = ⟨powObj, [Val.int 3, Val.int 2], []⟩ := by
  refine ⟨call_args_eq w cargs ckwargs, ?_, rfl, rfl⟩
  intro hpc
  exact call_kwargs_eq_of_not_truthy w cargs ckwargs hpc hnodup

/-- C4 witness: the `math.pow` wrapper called with `3` passes positional
arguments `[3, 2]` and unchanged keyword arguments. -/
theorem call_argument_merge_witness :
    (powWrapper.call [Val.int 3] []).1.kwargs = dictUpdate powWrapper.kwargs [] :=
  (call_argument_merge powWrapper [Val.int 3] [] (by simp)).2.1 rfl

/-- C10 counterexample: invoking a wrapper that retains a truthy product
configuration with no call-site keyword arguments mutates the wrapper
itself -- `calling_kwargs` aliases `self._kwargs`, so the `product_cfg`
assignment permanently adds the entry to the bound default kwargs. -/
theorem call_mutates_bound_kwargs :
    FunctionWrapper.init envM (Val.pcfg "layer")
        (.recordCfg "m.f" Option.none Option.none (some true)) = .ok wLayer ∧
    wLayer.kwargs = ([] : Dict) ∧
    (wLayer.call [] []).2.kwargs = [("product_cfg", Val.pcfg "layer")] ∧
    ([("product_cfg", Val.pcfg "layer")] : Dict) ≠ ([] : Dict) :=
  ⟨rfl, rfl, rfl, by decide⟩

/-- C10 as amended: invocation never changes the wrapper's resolved
function, bound default args or retained product configuration; the bound
default kwargs are unchanged whenever the call supplies keyword arguments
or the retained configuration is falsy, but when the call supplies none
and the configuration is truthy the bound kwargs dict itself receives the
`product_cfg` entry; a second invocation with identical call-site
arguments still hands the wrapped function an identical call. -/
theorem call_state_effects (w : FunctionWrapper) (cargs : List Val) (ckwargs : Dict) :
    (w.call cargs ckwargs).2.func = w.func ∧
    (w.call cargs ckwargs).2.args = w.args ∧
    (w.call cargs ckwargs).2.product_cfg = w.product_cfg ∧
    (ckwargs ≠ [] ∨ w.product_cfg.truthy = false → (w.call cargs ckwargs).2 = w) ∧
    (ckwargs = [] → w.product_cfg.truthy = true →
      (w.call cargs ckwargs).2.kwargs = dictSet w.kwargs "product_cfg" w.product_cfg) ∧
    ((w.call cargs ckwargs).2.call cargs ckwargs).1 = (w.call cargs ckwargs).1 := by
  refine ⟨?_, ?_, ?_, ?_, ?_, call_repeat w cargs ckwargs⟩
  · rw [call_snd_eq]
    split <;> rfl
  · rw [call_snd_eq]
    split <;> rfl
  · rw [call_snd_eq]
    split <;> rfl
  · intro h
    rw [call_snd_eq]
    have hcond : ¬(ckwargs = [] ∧ w.product_cfg.truthy = true) := by
      rcases h with h1 | h2
      · exact fun hc => h1 hc.1
      · exact fun hc => by rw [h2] at hc; exact Bool.false_ne_true hc.2
    simp [hcond]
  · intro h1 h2
    rw [call_snd_eq]
    simp [h1, h2]

/-- C10 witness: the mutation case, where the bound kwargs gain the
`product_cfg` entry. -/
theorem call_state_effects_witness :
    (wLayer.call [] []).2.kwargs = dictSet wLayer.kwargs "product_cfg" wLayer.product_cfg :=
  (call_state_effects wLayer [] []).2.2.2.2.1 rfl rfl

/-- C5 counterexample: when the resolved attribute exists but is not
callable, `get_function` fails through the bare `assert callable(func)` --
an `AssertionError` carrying the empty message, not an error with a
human-readable message describing the offending input. -/
theorem get_function_noncallable_bare_assert :
    get_function envNotCallable (.strF "m.x") = .error (.assertionError "") ∧
    PyError.message (.assertionError "") = "" :=
  ⟨rfl, rfl⟩

/-- C5 as amended: for a fully qualified name whose module imports, if the
final dot-delimited attribute does not exist in the module, resolution
fails with an `AttributeError` naming the module and attribute; if the
resolved attribute is not callable, it fails with a bare `AssertionError`
carrying no message; in both cases `get_function` fails rather than
returning a callable. -/
theorem get_function_failure_modes (env : PyEnv) (s modName funcName : String)
    (attrs : List (String × PyObj))
    (hsplit : rsplitDot s = some (modName, funcName))
    (hmod : alistGet env.modules modName = some attrs) :
    (alistGet attrs funcName = Option.none →
      get_function env (.strF s) = .error (.attributeError modName funcName)) ∧
    (∀ obj, alistGet attrs funcName = some obj → obj.isCallable = false →
      get_function env (.strF s) = .error (.assertionError "")) := by
  constructor
  · intro hattr
    simp [get_function, resolve_name, hsplit, hmod, hattr, Except.map]
  · intro obj hattr hcall
    simp [get_function, resolve_name, hsplit, hmod, hattr, hcall, Except.map]

/-- C5 witness: in a module holding only the non-callable `m.x`, resolving
`"m.x"` fails with the bare assertion. -/
theorem get_function_failure_modes_witness :
    get_function envNotCallable (.strF "m.x") = .error (.assertionError "") :=
  (get_function_failure_modes envNotCallable "m.x" "m" "x" [("x", ⟨false, "m.x"⟩)]
    rfl rfl).2 ⟨false, "m.x"⟩ rfl rfl

/-- C6: `dataset_center_time` returns the parse of the string at
`metadata_doc["extent"]["center_dt"]` when that nested path is present,
and returns the dataset's own computed `center_time` when either level of
the path is absent -- the `KeyError` is swallowed and the function returns
normally (its result type is total: no exception escapes the fallback). -/
theorem dataset_center_time_metadata_preferred (parse : String → Int) (ds : Dataset) :
    (∀ extent s, alistGet ds.metadata_doc "extent" = some extent →
      alistGet extent "center_dt" = some s →
      dataset_center_time parse ds = parse s) ∧
    (alistGet ds.metadata_doc "extent" = Option.none →
      dataset_center_time parse ds = ds.center_time) ∧
    (∀ extent, alistGet ds.metadata_doc "extent" = some extent →
      alistGet extent "center_dt" = Option.none →
      dataset_center_time parse ds = ds.center_time) := by
  refine ⟨?_, ?_, ?_⟩
  · intro extent s hext hdt
    simp [dataset_center_time, hext, hdt]
  · intro hext
    simp [dataset_center_time, hext]
  · intro extent hext hdt
    simp [dataset_center_time, hext, hdt]

/-- C6 witness: a dataset with no `extent` metadata key falls back to its
computed center time. -/
theorem dataset_center_time_metadata_preferred_witness :
    dataset_center_time (fun _ => 0) ⟨100, []⟩ = 100 :=
  (dataset_center_time_metadata_preferred (fun _ => 0) ⟨100, []⟩).2.1 rfl

/-- C7 counterexample: `collapse_to_single` on a NON-empty
`DatasetCollection` does not return the first payload -- the inherited
method reads `self._collections[0].data`, but `DatasetCollection.TimeData`
stores the payload under `datasets` and has no `data` attribute, so the
call raises `AttributeError`. -/
theorem dataset_collapse_to_single_raises :
    (DatasetCollection.build [((0 : Int), [(1 : Nat)])]).collapse_to_single =
      .error (.attributeError "TimeData" "data") :=
  rfl

/-- C7 as amended: on the base `DataCollection`, `collapse_to_single`
returns the first entry's payload when non-empty and `None` when empty; the
`DatasetCollection` specialization returns `None` when empty but raises
`AttributeError` when non-empty, because its entries store the payload
under `datasets`, not `data`. -/
theorem collapse_to_single_behaviour {α δ : Type} (c : DataCollection α)
    (d : DatasetCollection δ) :
    (∀ td rest, c.collections = td :: rest → c.collapse_to_single = some td.data) ∧
    (c.collections = [] → c.collapse_to_single = Option.none) ∧
    (d.collections = [] → d.collapse_to_single = .ok Option.none) ∧
    (∀ td rest, d.collections = td :: rest →
      d.collapse_to_single = .error (.attributeError "TimeData" "data")) := by
  refine ⟨?_, ?_, ?_, ?_⟩
  · intro td rest h
    simp [DataCollection.collapse_to_single, h]
  · intro h
    simp [DataCollection.collapse_to_single, h]
  · intro h
    simp [DatasetCollection.collapse_to_single, h]
  · intro td rest h
    simp [DatasetCollection.collapse_to_single, h, DsTimeData.getattr]

/-- C7 witness: a one-entry base collection collapses to its payload. -/
theorem collapse_to_single_behaviour_witness :
    (DataCollection.mk [⟨0, (5 : Nat)⟩]).collapse_to_single = some 5 :=
  (collapse_to_single_behaviour (DataCollection.mk [⟨0, (5 : Nat)⟩])
    (DatasetCollection.mk ([] : List (DsTimeData Nat)))).1 ⟨0, 5⟩ [] rfl

/-- Appending one entry adds exactly the size of its dataset set to the
`DatasetCollection` length. -/
theorem dataset_collection_len_add_time {δ : Type} (c : DatasetCollection δ) (t : Int)
    (ds : List δ) :
    (c.add_time t ds).len = c.len + ds.length := by
  simp [DatasetCollection.add_time, DatasetCollection.len]

/-- Folding `add_time` over entries starting from any collection sums the
entry sizes onto its length. -/
theorem dataset_collection_build_len {δ : Type} (entries : List (Int × List δ))
    (c : DatasetCollection δ) :
    (entries.foldl (fun acc e => acc.add_time e.1 e.2) c).len =
      c.len + (entries.map (fun e => e.2.length)).sum := by
  induction entries generalizing c with
  | nil => simp
  | cons e rest ih =>
    rw [List.foldl_cons, ih, dataset_collection_len_add_time]
    simp [Nat.add_assoc]

/-- C8: the length of a `DatasetCollection` built by `add_time` calls is
the sum of the sizes of the added dataset sets (not the number of calls),
and one further `add_time` with an `n`-dataset set increases the length by
exactly `n`. -/
theorem dataset_collection_len_is_total_datasets {δ : Type}
    (entries : List (Int × List δ)) (t : Int) (ds : List δ) :
    (DatasetCollection.build entries).len =
      (entries.map (fun e => e.2.length)).sum ∧
    ((DatasetCollection.build entries).add_time t ds).len =
      (DatasetCollection.build entries).len + ds.length := by
  constructor
  · rw [DatasetCollection.build, dataset_collection_build_len]
    simp [DatasetCollection.len]
  · exact dataset_collection_len_add_time _ t ds

end OgcUtils
